import Mathlib

/-!
# Verification of the LidarCounter Detection & Schedule Engine

A shallow embedding, in Lean 4, of the core of `app.py` from the
LidarCounter-Orangepi repository: the TFmini frame decoder, the
debounce detection state machine of `sensor_loop`, the schedule
evaluator `compute_schedule_flags`, the schedule loading paths
(`refresh_schedule`, `load_local_schedule`), the detection side
effects of `handle_detection`, and the mode-control endpoints
(`api_mode`, `api_config`).

Bytes are modelled as `Nat` (values below 256 in any real stream;
the definitions are faithful to the Python source for byte values),
timestamps in milliseconds as `Int` (Python integers), and
times-of-day as `Nat` seconds since midnight (Python `datetime.time`
objects compare lexicographically on (hour, minute, second), which
for the values occurring here is order-isomorphic to seconds since
midnight).
-/

namespace LidarCounter

/-- A decoded sample, as produced by `parse_tfmini_frame` in app.py
(the dictionary `{"distance_mm": distance, "strength": strength}`). -/
structure Sample where
  distance_mm : Nat
  strength : Nat
deriving DecidableEq, Repr

/-- Embedding of `parse_tfmini_frame` (app.py lines 171-178):
requires at least 9 bytes, the two sync bytes `0x59 0x59`,
little-endian distance and strength, and a checksum byte equal to
the low byte of the sum of the first 8 bytes. -/
def parse_tfmini_frame (buf : List Nat) : Option Sample :=
  match buf with
  | b0 :: b1 :: b2 :: b3 :: b4 :: b5 :: b6 :: b7 :: b8 :: _ =>
    if b0 = 0x59 ∧ b1 = 0x59 then
      let distance := b2 + b3 * 256
      let strength := b4 + b5 * 256
      let chksum := (b0 + b1 + b2 + b3 + b4 + b5 + b6 + b7) % 256
      if chksum = b8 then some ⟨distance, strength⟩ else none
    else none
  | _ => none

/-- Embedding of `read_buf.find(b"\x59\x59")` (app.py line 307):
index of the first occurrence of two consecutive `0x59` bytes,
`none` when there is no occurrence (Python returns `-1`). -/
def findSync : List Nat → Option Nat
  | [] => none
  | [_] => none
  | a :: b :: t =>
    if a = 0x59 ∧ b = 0x59 then some 0 else (findSync (b :: t)).map (· + 1)

/-- One run of the inner decode loop of `sensor_loop` (app.py lines
306-315), written with an explicit fuel argument so that the
function is structurally recursive.  Each iteration either stops
(no sync marker: keep at most the last 2 bytes; or fewer than 9
bytes available from the marker) or consumes a 9-byte candidate
frame and continues.  `drain` below supplies fuel `buf.length`,
which is proved sufficient (`drainAux_congr`): each recursive call
consumes at least 9 bytes of buffer while spending one unit of fuel. -/
def drainAux : Nat → List Nat → List Nat × List Sample
  | 0, buf => (buf, [])
  | fuel + 1, buf =>
    match findSync buf with
    | none =>
      -- `if len(read_buf) > 2: read_buf = read_buf[-2:]` then break
      if 2 < buf.length then (buf.drop (buf.length - 2), []) else (buf, [])
    | some idx =>
      -- `if idx > 0: read_buf = read_buf[idx:]` (drop leading garbage)
      let buf1 := buf.drop idx
      if buf1.length < 9 then (buf1, [])
      else
        -- `frame = bytes(read_buf[:9]); read_buf = read_buf[9:]`
        let rest := buf1.drop 9
        let res := drainAux fuel rest
        match parse_tfmini_frame (buf1.take 9) with
        | none => res
        | some smp => (res.1, smp :: res.2)

/-- The inner decode loop of `sensor_loop` run to quiescence on a
buffer: returns the remaining pending bytes and the decoded samples
in order. -/
def drain (buf : List Nat) : List Nat × List Sample :=
  drainAux buf.length buf

/-- Position `j` of `l` starts a 2-byte sync marker. -/
def syncAt (l : List Nat) (j : Nat) : Prop :=
  l.get? j = some 0x59 ∧ l.get? (j + 1) = some 0x59

instance (l : List Nat) (j : Nat) : Decidable (syncAt l j) := by
  unfold syncAt; infer_instance

/-- The outer read loop of `sensor_loop` (app.py lines 301-315), viewed at
the decoding level: each serial chunk is appended to the pending buffer
(`read_buf.extend(chunk)`) and the inner decode loop is run to quiescence.
Returns the final pending buffer and all decoded samples in order. -/
def runChunks : List Nat → List (List Nat) → List Nat × List Sample
  | buf, [] => (buf, [])
  | buf, c :: cs =>
    let r1 := drain (buf ++ c)
    let r2 := runChunks r1.1 cs
    (r2.1, r1.2 ++ r2.2)

/-! ## Schedule evaluator (`compute_schedule_flags`, app.py lines 199-221) -/

/-- One day entry of the schedule document: the JSON object
`{Enable: bool, StartShow: "HH:MM", ShowStop: "HH:MM"}`.  A `none`
field models a missing key (`entry.get(...)` returning `None`). -/
structure DayEntry where
  Enable : Bool
  StartShow : Option String
  ShowStop : Option String
deriving DecidableEq, Repr

/-- A schedule document as parsed from JSON: either a JSON array of day
entries, or any non-array JSON value (`nonArray`).  `refresh_schedule`
validates the array shape; `load_local_schedule` does not. -/
inductive ScheduleDoc where
  | arr (entries : List DayEntry)
  | nonArray
deriving DecidableEq, Repr

/-- Split a character list at every `':'` (the behaviour of Python's
`re`-based `strptime` on the literal `:` of the format string, viewed
as splitting). -/
def splitColon : List Char → List (List Char)
  | [] => [[]]
  | c :: rest =>
    match splitColon rest with
    | [] => [[]]
    | g :: gs => if c = ':' then [] :: g :: gs else (c :: g) :: gs

/-- Numeric value of a list of decimal digit characters. -/
def natOfDigits (l : List Char) : Nat :=
  l.foldl (fun a c => a * 10 + (c.toNat - '0'.toNat)) 0

/-- Embedding of `datetime.strptime(s, "%H:%M").time()` (app.py lines
212-213), returning the time of day in seconds since midnight, or
`none` when parsing raises `ValueError`: `%H` is one or two digits
valued 0-23, `%M` is one or two digits valued 0-59, separated by a
literal `:`, with no unconsumed input. -/
def parseHHMM (s : String) : Option Nat :=
  match splitColon s.toList with
  | [hs, ms] =>
    if hs.length = 0 ∨ 2 < hs.length ∨ ¬ hs.all Char.isDigit then none
    else if ms.length = 0 ∨ 2 < ms.length ∨ ¬ ms.all Char.isDigit then none
    else
      let h := natOfDigits hs
      let m := natOfDigits ms
      if h ≤ 23 ∧ m ≤ 59 then some ((h * 60 + m) * 60) else none
  | _ => none

/-- Python truthiness of `entry.get(...)` for an optional string:
`None` and `""` are falsy (`if not start_str or not stop_str`). -/
def strFalsy : Option String → Bool
  | none => true
  | some s => s = ""

/-- Embedding of `compute_schedule_flags` (app.py lines 199-221).
Inputs: the resident `schedule_data` (or `none` when no schedule is
loaded), `now_local.weekday()` (Python convention Monday=0..Sunday=6),
and `now_local.time()` as seconds since midnight.  Returns
`(valid, active, enable)` exactly as the Python function does:

* no schedule loaded (or falsy document) → `(False, False, False)`;
* non-array document, out-of-range day index, or a `strptime` failure
  (all caught by the bare `except`) → `(False, False, False)`;
* missing or empty start/stop string → `(False, False, enable)`;
* otherwise → `(True, active, enable)` where `active` is computed from
  the time window; note the `enable` flag is *not* consulted when
  computing `active` and causes no early return. -/
def compute_schedule_flags (schedule_data : Option ScheduleDoc)
    (weekday : Nat) (now_t : Nat) : Bool × Bool × Bool :=
  match schedule_data with
  | none => (false, false, false)
  | some ScheduleDoc.nonArray => (false, false, false)
  | some (ScheduleDoc.arr data) =>
    let idx := (weekday + 1) % 7
    match data.get? idx with
    | none => (false, false, false)
    | some entry =>
      let enable := entry.Enable
      if strFalsy entry.StartShow ∨ strFalsy entry.ShowStop then
        (false, false, enable)
      else
        match entry.StartShow, entry.ShowStop with
        | some ss, some ts =>
          match parseHHMM ss, parseHHMM ts with
          | some start_t, some stop_t =>
            let active :=
              if start_t ≤ stop_t then
                decide (start_t ≤ now_t ∧ now_t ≤ stop_t)
              else
                decide (now_t ≥ start_t ∨ now_t ≤ stop_t)
            (true, active, enable)
          | _, _ => (false, false, false)
        | _, _ => (false, false, enable)

/-- Embedding of the schedule-document update performed by
`refresh_schedule` (app.py lines 223-258).  The network fetch is
abstracted into its outcome: `none` models any request, HTTP or JSON
error (the `except` branch), `some doc` a successfully parsed JSON
body.  Returns the new resident `schedule_data` and the function's
boolean result.  A non-list body or a list whose length is not 7
raises `ValueError`, landing in the `except` branch with
`schedule_data` unchanged. -/
def refresh_schedule (fetched : Option ScheduleDoc)
    (schedule_data : Option ScheduleDoc) : Option ScheduleDoc × Bool :=
  match fetched with
  | none => (schedule_data, false)
  | some ScheduleDoc.nonArray => (schedule_data, false)
  | some (ScheduleDoc.arr entries) =>
    if entries.length = 7 then (some (ScheduleDoc.arr entries), true)
    else (schedule_data, false)

/-- Embedding of `load_local_schedule` (app.py lines 260-273).
`loaded` is the outcome of reading and JSON-parsing the local cache
file: `none` when the file is absent or unparsable, `some doc`
otherwise.  The parsed document is installed as `schedule_data`
without any validation of its shape or length. -/
def load_local_schedule (loaded : Option ScheduleDoc)
    (schedule_data : Option ScheduleDoc) : Option ScheduleDoc × Bool :=
  match loaded with
  | none => (schedule_data, false)
  | some d => (some d, true)

/-! ## Detection state machine (`sensor_loop`, app.py lines 294-353) -/

/-- The per-loop mutable state of `sensor_loop` together with the
fields of the shared `state` dict that it writes.  `car_since_ms`
starts as Python `None`; `empty_since_ms` is initialised to the
current time and is never `None`. -/
structure SensorState where
  car_active : Bool
  last_state_is_car : Bool
  car_since_ms : Option Int
  empty_since_ms : Int
  car_present : Bool
  last_distance_mm : Option Nat
  last_strength : Option Nat
  last_valid_reading : Bool
deriving DecidableEq, Repr

/-- The initial state of `sensor_loop` (app.py lines 295-298), started
at time `t0` (`empty_since_ms = int(time.time()*1000)`), with the
shared `state` dict at its initial values (app.py lines 182-188). -/
def initSensorState (t0 : Int) : SensorState :=
  { car_active := false
    last_state_is_car := false
    car_since_ms := none
    empty_since_ms := t0
    car_present := false
    last_distance_mm := none
    last_strength := none
    last_valid_reading := false }

/-- Processing of one parsed sample by `sensor_loop` (app.py lines
317-350).  Configuration (`IGNORE_ZERO_DISTANCE`, `MIN_STRENGTH`,
`DEBOUNCE_MS`) and the values read from the shared state under the
lock (`schedule_active`, `manual_override`, `test_mode`) are inputs,
since they are re-read on every iteration.  The result's second
component models the `threading.Thread(target=handle_detection,
args=(distance_mm, not tm))` dispatch: `some (distance_mm, log_to_db)`
when a detection is handed to `handle_detection`, `none` otherwise.
The `not sched_ok` branch ends in `continue`, skipping the trailing
`state["car_present"] = car_active` write (but it has already set
`car_present` to `True` itself). -/
def sensor_step (ignore_zero_distance : Bool) (min_strength : Nat)
    (debounce_ms : Int) (schedule_active manual_override test_mode : Bool)
    (st : SensorState) (distance_mm strength : Nat) (now_ms : Int) :
    SensorState × Option (Nat × Bool) :=
  let valid_reading :=
    !(ignore_zero_distance && distance_mm == 0) &&
      !(decide (min_strength ≠ 0) && decide (strength < min_strength))
  let is_car_sample := valid_reading && decide (0 < distance_mm)
  let sched_ok := schedule_active || manual_override
  let tm := test_mode
  let st0 := { st with
    last_distance_mm := some distance_mm
    last_strength := some strength
    last_valid_reading := valid_reading }
  if is_car_sample then
    let cs := if !st0.last_state_is_car then some now_ms else st0.car_since_ms
    let st1 := { st0 with car_since_ms := cs, last_state_is_car := true }
    -- `if not car_active and car_since_ms is not None:`
    if st1.car_active then ({ st1 with car_present := st1.car_active }, none)
    else
      match st1.car_since_ms with
      | none => ({ st1 with car_present := st1.car_active }, none)
      | some car_since =>
        if debounce_ms ≤ now_ms - car_since then
          if !sched_ok then
            ({ st1 with car_active := true, car_present := true }, none)
          else
            ({ st1 with car_active := true, car_present := true },
              some (distance_mm, !tm))
        else
          ({ st1 with car_present := st1.car_active }, none)
  else
    let es := if st0.last_state_is_car then now_ms else st0.empty_since_ms
    let st1 := { st0 with empty_since_ms := es, last_state_is_car := false }
    if st1.car_active then
      if debounce_ms ≤ now_ms - es then
        ({ st1 with car_active := false, car_present := false }, none)
      else
        ({ st1 with car_present := st1.car_active }, none)
    else
      ({ st1 with car_present := st1.car_active }, none)

/-- One sample's worth of inputs to `sensor_step`: the parsed sample,
the loop's clock reading, and the shared-state values read under the
lock in this iteration. -/
structure SampleIn where
  distance_mm : Nat
  strength : Nat
  now_ms : Int
  schedule_active : Bool
  manual_override : Bool
  test_mode : Bool
deriving DecidableEq, Repr

/-- `sensor_loop` iterated over a sequence of parsed samples,
collecting the detections dispatched to `handle_detection`. -/
def sensor_run (ignore_zero_distance : Bool) (min_strength : Nat)
    (debounce_ms : Int) :
    SensorState → List SampleIn → SensorState × List (Nat × Bool)
  | st, [] => (st, [])
  | st, i :: is =>
    let r := sensor_step ignore_zero_distance min_strength debounce_ms
      i.schedule_active i.manual_override i.test_mode st
      i.distance_mm i.strength i.now_ms
    let rr := sensor_run ignore_zero_distance min_strength debounce_ms r.1 is
    (rr.1, (match r.2 with | some e => [e] | none => []) ++ rr.2)

/-- Number of steps in a run at which `car_active` changes from
`false` to `true` (entries into the confirmed-presence state). -/
def risesCount (ignore_zero_distance : Bool) (min_strength : Nat)
    (debounce_ms : Int) :
    SensorState → List SampleIn → Nat
  | _, [] => 0
  | st, i :: is =>
    let r := sensor_step ignore_zero_distance min_strength debounce_ms
      i.schedule_active i.manual_override i.test_mode st
      i.distance_mm i.strength i.now_ms
    (if !st.car_active && r.1.car_active then 1 else 0) +
      risesCount ignore_zero_distance min_strength debounce_ms r.1 is

/-! ## Detection side effects (`handle_detection`, app.py lines 355-363) -/

/-- The observable side effects of one `handle_detection` call on the
external collaborators: whether a row was written to the durable
SQLite store (`increment_count_and_save`), whether the in-memory
`test_count_today` counter was incremented, and whether an MQTT
message was published (`publish_detection`). -/
structure DetectionEffects where
  persisted : Bool
  test_count_incremented : Bool
  published : Bool
deriving DecidableEq, Repr

/-- Embedding of `handle_detection` (app.py lines 355-363): persists
when `log_to_db` is true, otherwise increments `test_count_today`;
then calls `publish_detection` unconditionally. -/
def handle_detection (log_to_db : Bool) : DetectionEffects :=
  { persisted := log_to_db
    test_count_incremented := !log_to_db
    published := true }

/-- The effects reaching the Event Sink for the outcome of one
`sensor_step`: no dispatch means no persistence, no counter change
and no publish. -/
def sink_effects : Option (Nat × Bool) → DetectionEffects
  | none => ⟨false, false, false⟩
  | some (_, log_to_db) => handle_detection log_to_db

/-! ## Mode control (`api_mode`, app.py lines 425-438) and
configuration update (`api_config`, app.py lines 405-423) -/

/-- The module-level engine state touched by the two POST endpoints:
the mode globals (`test_mode`, `test_count_today`, `manual_override`)
plus the other shared fields, carried along to state that the
endpoints leave them unchanged. -/
structure ModeState where
  test_mode : Bool
  test_count_today : Nat
  manual_override : Bool
  car_present : Bool
  schedule_valid : Bool
  schedule_active : Bool
  last_distance_mm : Option Nat
deriving DecidableEq, Repr

/-- Embedding of the POST branch of `api_mode` (app.py lines 430-435):
`tm?`/`mo?` are the optional `test_mode`/`manual_override` keys of the
request body (already coerced by `bool(...)`).  Toggling `test_mode`
from off to on resets `test_count_today` to 0 before assigning. -/
def api_mode_post (tm? mo? : Option Bool) (g : ModeState) : ModeState :=
  let g1 :=
    match tm? with
    | some b =>
      let cnt := if b && !g.test_mode then 0 else g.test_count_today
      { g with test_count_today := cnt, test_mode := b }
    | none => g
  match mo? with
  | some b => { g1 with manual_override := b }
  | none => g1

/-- Embedding of the `test_mode` effect of the POST branch of
`api_config` (app.py lines 421-422): when the merged detection config
contains a `test_mode` key, `test_mode` is assigned directly; no
other `ModeState` field is touched (in particular `test_count_today`
is not reset). -/
def api_config_post_test_mode (tm? : Option Bool) (g : ModeState) : ModeState :=
  match tm? with
  | some b => { g with test_mode := b }
  | none => g

theorem findSync_nil : findSync [] = none := rfl

theorem findSync_single (a : Nat) : findSync [a] = none := rfl

theorem findSync_cons_cons (a b : Nat) (t : List Nat) :
    findSync (a :: b :: t) =
      if a = 0x59 ∧ b = 0x59 then some 0 else (findSync (b :: t)).map (· + 1) := by
  rfl

theorem syncAt_cons (a : Nat) (t : List Nat) (j : Nat) :
    syncAt (a :: t) (j + 1) ↔ syncAt t j := by
  unfold syncAt
  simp [List.get?]

theorem syncAt_zero_cons_cons (a b : Nat) (t : List Nat) :
    syncAt (a :: b :: t) 0 ↔ a = 0x59 ∧ b = 0x59 := by
  unfold syncAt
  simp [List.get?]

theorem not_syncAt_single (a : Nat) (j : Nat) : ¬ syncAt [a] j := by
  rintro ⟨h1, h2⟩
  cases j with
  | zero => simp [List.get?] at h2
  | succ j' => simp [List.get?] at h1

theorem findSync_eq_none_iff (l : List Nat) :
    findSync l = none ↔ ∀ j, ¬ syncAt l j := by
  induction l with
  | nil =>
    simp only [findSync_nil, true_iff]
    rintro j ⟨h1, _⟩
    simp [List.get?] at h1
  | cons a t ih =>
    cases t with
    | nil =>
      simp only [findSync_single, true_iff]
      exact fun j => not_syncAt_single a j
    | cons b t' =>
      rw [findSync_cons_cons]
      by_cases hab : a = 0x59 ∧ b = 0x59
      · rw [if_pos hab]
        simp only [reduceCtorEq, false_iff, not_forall]
        refine ⟨0, ?_⟩
        simp only [not_not]
        exact (syncAt_zero_cons_cons a b t').mpr hab
      · rw [if_neg hab]
        have hmap : ((findSync (b :: t')).map (· + 1) = none) ↔ findSync (b :: t') = none := by
          cases findSync (b :: t') <;> simp
        rw [hmap, ih]
        constructor
        · intro hall j
          cases j with
          | zero => rw [syncAt_zero_cons_cons]; exact hab
          | succ j' => rw [syncAt_cons]; exact hall j'
        · intro hall j
          have := hall (j + 1)
          rwa [syncAt_cons] at this

theorem findSync_eq_some_first (l : List Nat) (i : Nat) (h : findSync l = some i) :
    syncAt l i ∧ ∀ j, j < i → ¬ syncAt l j := by
  induction l generalizing i with
  | nil => simp [findSync_nil] at h
  | cons a t ih =>
    cases t with
    | nil => simp [findSync_single] at h
    | cons b t' =>
      rw [findSync_cons_cons] at h
      by_cases hab : a = 0x59 ∧ b = 0x59
      · rw [if_pos hab] at h
        injection h with h'
        subst h'
        exact ⟨(syncAt_zero_cons_cons a b t').mpr hab, by omega⟩
      · rw [if_neg hab] at h
        cases hft : findSync (b :: t') with
        | none => rw [hft] at h; simp at h
        | some i' =>
          rw [hft] at h
          simp only [Option.map_some'] at h
          injection h with h'
          subst h'
          obtain ⟨hs, hmin⟩ := ih i' hft
          refine ⟨(syncAt_cons a (b :: t') i').mpr hs, ?_⟩
          intro j hj
          cases j with
          | zero => rw [syncAt_zero_cons_cons]; exact hab
          | succ j' =>
            rw [syncAt_cons]
            exact hmin j' (by omega)

theorem syncAt_zero_findSync (l : List Nat) (h : syncAt l 0) :
    findSync l = some 0 := by
  match l with
  | [] => exact absurd h.1 (by simp [List.get?])
  | [a] => exact absurd h (not_syncAt_single a 0)
  | a :: b :: t =>
    rw [findSync_cons_cons, if_pos ((syncAt_zero_cons_cons a b t).mp h)]

theorem drainAux_succ_none (f : Nat) (buf : List Nat) (h : findSync buf = none) :
    drainAux (f + 1) buf =
      if 2 < buf.length then (buf.drop (buf.length - 2), []) else (buf, []) := by
  simp only [drainAux, h]

theorem drainAux_succ_some_short (f idx : Nat) (buf : List Nat)
    (h : findSync buf = some idx) (h9 : (buf.drop idx).length < 9) :
    drainAux (f + 1) buf = (buf.drop idx, []) := by
  simp only [drainAux, h, if_pos h9]

theorem drainAux_succ_some_long (f idx : Nat) (buf : List Nat)
    (h : findSync buf = some idx) (h9 : ¬ (buf.drop idx).length < 9) :
    drainAux (f + 1) buf =
      match parse_tfmini_frame ((buf.drop idx).take 9) with
      | none => drainAux f ((buf.drop idx).drop 9)
      | some smp =>
        ((drainAux f ((buf.drop idx).drop 9)).1,
          smp :: (drainAux f ((buf.drop idx).drop 9)).2) := by
  simp only [drainAux, h, if_neg h9]

theorem drainAux_congr (f : Nat) :
    ∀ (g : Nat) (buf : List Nat), buf.length ≤ f → buf.length ≤ g →
      drainAux f buf = drainAux g buf := by
  induction f with
  | zero =>
    intro g buf hf _
    have hb : buf = [] := List.length_eq_zero.mp (Nat.le_zero.mp hf)
    subst hb
    cases g with
    | zero => rfl
    | succ g' => rw [drainAux_succ_none g' [] findSync_nil]; rfl
  | succ f' ih =>
    intro g buf hf hg
    cases g with
    | zero =>
      have hb : buf = [] := List.length_eq_zero.mp (Nat.le_zero.mp hg)
      subst hb
      rw [drainAux_succ_none f' [] findSync_nil]; rfl
    | succ g' =>
      cases hfs : findSync buf with
      | none => rw [drainAux_succ_none f' buf hfs, drainAux_succ_none g' buf hfs]
      | some idx =>
        by_cases h9 : (buf.drop idx).length < 9
        · rw [drainAux_succ_some_short f' idx buf hfs h9,
            drainAux_succ_some_short g' idx buf hfs h9]
        · rw [drainAux_succ_some_long f' idx buf hfs h9,
            drainAux_succ_some_long g' idx buf hfs h9]
          have hlen : ((buf.drop idx).drop 9).length ≤ f' ∧
              ((buf.drop idx).drop 9).length ≤ g' := by
            simp only [List.length_drop]
            simp only [List.length_drop] at h9
            omega
          rw [ih g' ((buf.drop idx).drop 9) hlen.1 hlen.2]

theorem drain_of_findSync_none (buf : List Nat) (h : findSync buf = none) :
    drain buf = if 2 < buf.length then (buf.drop (buf.length - 2), []) else (buf, []) := by
  cases buf with
  | nil => rfl
  | cons a t => exact drainAux_succ_none t.length (a :: t) h

theorem drain_of_findSync_some_short (buf : List Nat) (idx : Nat)
    (h : findSync buf = some idx) (h9 : (buf.drop idx).length < 9) :
    drain buf = (buf.drop idx, []) := by
  cases buf with
  | nil => simp [findSync_nil] at h
  | cons a t => exact drainAux_succ_some_short t.length idx (a :: t) h h9

theorem drain_of_findSync_some_long (buf : List Nat) (idx : Nat)
    (h : findSync buf = some idx) (h9 : ¬ (buf.drop idx).length < 9) :
    drain buf =
      match parse_tfmini_frame ((buf.drop idx).take 9) with
      | none => drain ((buf.drop idx).drop 9)
      | some smp =>
        ((drain ((buf.drop idx).drop 9)).1, smp :: (drain ((buf.drop idx).drop 9)).2) := by
  cases buf with
  | nil => simp [findSync_nil] at h
  | cons a t =>
    rw [show drain (a :: t) = drainAux (t.length + 1) (a :: t) from rfl,
      drainAux_succ_some_long t.length idx (a :: t) h h9]
    have hfix : drainAux t.length (((a :: t).drop idx).drop 9) =
        drain (((a :: t).drop idx).drop 9) := by
      apply drainAux_congr
      · simp only [List.length_drop]
        simp only [List.length_drop] at h9
        simp only [List.length_cons]
        omega
      · exact Nat.le_refl _
    rw [hfix]

theorem syncAt_drop (l : List Nat) (k j : Nat) :
    syncAt (l.drop k) j ↔ syncAt l (k + j) := by
  unfold syncAt
  rw [List.get?_drop, List.get?_drop, show k + (j + 1) = k + j + 1 by omega]

theorem syncAt_append_left (l1 l2 : List Nat) (j : Nat) (h : j + 1 < l1.length) :
    syncAt (l1 ++ l2) j ↔ syncAt l1 j := by
  unfold syncAt
  rw [List.get?_append (by omega), List.get?_append h]

theorem syncAt_mono (l1 l2 : List Nat) (j : Nat) (h : syncAt l1 j) :
    syncAt (l1 ++ l2) j := by
  obtain ⟨h1, h2⟩ := h
  have hb : j + 1 < l1.length := (List.get?_eq_some.mp h2).1
  exact (syncAt_append_left l1 l2 j hb).mpr ⟨h1, h2⟩

/-- The first sync marker in a buffer is at or after any prefix in which
no marker starts. -/
theorem findSync_shift (l : List Nat) (k : Nat)
    (h : ∀ j, j < k → ¬ syncAt l j) :
    findSync l = (findSync (l.drop k)).map (· + k) := by
  induction k generalizing l with
  | zero =>
    rw [List.drop_zero]
    cases findSync l <;> simp
  | succ k' ih =>
    cases l with
    | nil =>
      simp [findSync_nil, List.drop_nil]
    | cons a t =>
      have h0 : ¬ syncAt (a :: t) 0 := h 0 (by omega)
      have hstep : findSync (a :: t) = (findSync t).map (· + 1) := by
        cases t with
        | nil => simp [findSync_single, findSync_nil]
        | cons b t' =>
          rw [findSync_cons_cons,
            if_neg (fun hab => h0 ((syncAt_zero_cons_cons a b t').mpr hab))]
      have ht : ∀ j, j < k' → ¬ syncAt t j := by
        intro j hj hsync
        exact h (j + 1) (by omega) ((syncAt_cons a t j).mpr hsync)
      rw [hstep, ih t ht, List.drop_succ_cons]
      cases findSync (t.drop k') with
      | none => simp
      | some i =>
        simp only [Option.map_some', Option.some.injEq]
        omega

theorem findSync_eq_some_of_first (l : List Nat) (i : Nat)
    (hs : syncAt l i) (hmin : ∀ j, j < i → ¬ syncAt l j) :
    findSync l = some i := by
  rw [findSync_shift l i hmin]
  have h0 : syncAt (l.drop i) 0 := by
    rw [syncAt_drop]
    simpa using hs
  rw [syncAt_zero_findSync (l.drop i) h0]
  simp

theorem findSync_append_of_some (b ys : List Nat) (i : Nat)
    (h : findSync b = some i) :
    findSync (b ++ ys) = some i := by
  obtain ⟨hs, hmin⟩ := findSync_eq_some_first b i h
  have hb : i + 1 < b.length := (List.get?_eq_some.mp hs.2).1
  apply findSync_eq_some_of_first
  · exact syncAt_mono b ys i hs
  · intro j hj
    rw [syncAt_append_left b ys j (by omega)]
    exact hmin j hj

/-- If the first marker positions agree after dropping to the marker,
the two drains agree: the decode loop depends only on the buffer from
the first sync marker on. -/
theorem drain_congr_of_drop_eq (l1 l2 : List Nat) (i1 i2 : Nat)
    (h1 : findSync l1 = some i1) (h2 : findSync l2 = some i2)
    (heq : l1.drop i1 = l2.drop i2) :
    drain l1 = drain l2 := by
  by_cases h9 : (l1.drop i1).length < 9
  · rw [drain_of_findSync_some_short l1 i1 h1 h9,
      drain_of_findSync_some_short l2 i2 h2 (by rw [← heq]; exact h9), heq]
  · rw [drain_of_findSync_some_long l1 i1 h1 h9,
      drain_of_findSync_some_long l2 i2 h2 (by rw [← heq]; exact h9), heq]

theorem drain_append_aux :
    ∀ (n : Nat) (b ys : List Nat), b.length ≤ n →
      drain (b ++ ys) =
        ((drain ((drain b).1 ++ ys)).1, (drain b).2 ++ (drain ((drain b).1 ++ ys)).2) := by
  intro n
  induction n with
  | zero =>
    intro b ys hb
    have : b = [] := List.length_eq_zero.mp (Nat.le_zero.mp hb)
    subst this
    simp [drain, drainAux]
  | succ n' ih =>
    intro b ys hb
    cases hfs : findSync b with
    | none =>
      have hnb : ∀ j, ¬ syncAt b j := (findSync_eq_none_iff b).mp hfs
      rw [drain_of_findSync_none b hfs]
      by_cases hlen : 2 < b.length
      · rw [if_pos hlen]
        have htlen : (b.drop (b.length - 2)).length = 2 := by
          rw [List.length_drop]; omega
        have hsuffices : drain (b ++ ys) = drain (b.drop (b.length - 2) ++ ys) := by
          have hpre : ∀ j, j < b.length - 2 → ¬ syncAt (b ++ ys) j := by
            intro j hj hsync
            exact hnb j ((syncAt_append_left b ys j (by omega)).mp hsync)
          have hshift := findSync_shift (b ++ ys) (b.length - 2) hpre
          have hdrop : (b ++ ys).drop (b.length - 2) = b.drop (b.length - 2) ++ ys :=
            List.drop_append_of_le_length (by omega)
          cases hts : findSync (b.drop (b.length - 2) ++ ys) with
          | none =>
            have hnone : findSync (b ++ ys) = none := by
              rw [hshift, hdrop, hts]; rfl
            rw [drain_of_findSync_none (b ++ ys) hnone,
              drain_of_findSync_none _ hts]
            cases ys with
            | nil =>
              rw [List.append_nil, List.append_nil]
              rw [if_pos hlen, if_neg (by omega)]
            | cons y ys' =>
              have h1 : 2 < (b ++ y :: ys').length := by
                rw [List.length_append]; omega
              have h2 : 2 < (b.drop (b.length - 2) ++ y :: ys').length := by
                rw [List.length_append, htlen, List.length_cons]; omega
              rw [if_pos h1, if_pos h2]
              have hL : (b.drop (b.length - 2) ++ y :: ys').length - 2 =
                  (y :: ys').length := by
                rw [List.length_append, htlen]; omega
              have hR : (b ++ y :: ys').length - 2 =
                  (b.length - 2) + (y :: ys').length := by
                rw [List.length_append]; omega
              rw [hL, hR, ← List.drop_drop, hdrop]
          | some i =>
            have hsome : findSync (b ++ ys) = some (i + (b.length - 2)) := by
              rw [hshift, hdrop, hts]; rfl
            apply drain_congr_of_drop_eq (b ++ ys) _ (i + (b.length - 2)) i hsome hts
            rw [show i + (b.length - 2) = (b.length - 2) + i by omega,
              ← List.drop_drop, hdrop]
        rw [hsuffices]
        simp
      · rw [if_neg hlen]
        simp
    | some i =>
      obtain ⟨hs, hmin⟩ := findSync_eq_some_first b i hfs
      have hib : i + 1 < b.length := (List.get?_eq_some.mp hs.2).1
      have hfirst : findSync (b ++ ys) = some i := findSync_append_of_some b ys i hfs
      have hdrop : (b ++ ys).drop i = b.drop i ++ ys :=
        List.drop_append_of_le_length (by omega)
      by_cases h9 : (b.drop i).length < 9
      · rw [drain_of_findSync_some_short b i hfs h9]
        have hs0 : findSync (b.drop i ++ ys) = some 0 := by
          apply syncAt_zero_findSync
          apply syncAt_mono
          rw [syncAt_drop]
          simpa using hs
        have : drain (b ++ ys) = drain (b.drop i ++ ys) := by
          apply drain_congr_of_drop_eq (b ++ ys) (b.drop i ++ ys) i 0 hfirst hs0
          rw [hdrop, List.drop_zero]
        rw [this]
        simp
      · have h9' : ¬ ((b ++ ys).drop i).length < 9 := by
          rw [hdrop, List.length_append]
          omega
        have htake : ((b ++ ys).drop i).take 9 = (b.drop i).take 9 := by
          rw [hdrop, List.take_append_of_le_length (by omega)]
        have hrest : ((b ++ ys).drop i).drop 9 = (b.drop i).drop 9 ++ ys := by
          rw [hdrop, List.drop_append_of_le_length (by omega)]
        have hrestlen : ((b.drop i).drop 9).length ≤ n' := by
          simp only [List.length_drop]
          simp only [List.length_drop] at h9
          omega
        have hIH := ih ((b.drop i).drop 9) ys hrestlen
        rw [drain_of_findSync_some_long b i hfs h9,
          drain_of_findSync_some_long (b ++ ys) i hfirst h9', htake, hrest]
        cases hp : parse_tfmini_frame ((b.drop i).take 9) with
        | none => exact hIH
        | some smp =>
          rw [hIH]
          simp

theorem drain_append (b ys : List Nat) :
    drain (b ++ ys) =
      ((drain ((drain b).1 ++ ys)).1, (drain b).2 ++ (drain ((drain b).1 ++ ys)).2) :=
  drain_append_aux b.length b ys (Nat.le_refl _)

theorem drain_quiescent_aux :
    ∀ (n : Nat) (b : List Nat), b.length ≤ n → drain (drain b).1 = ((drain b).1, []) := by
  intro n
  induction n with
  | zero =>
    intro b hb
    have : b = [] := List.length_eq_zero.mp (Nat.le_zero.mp hb)
    subst this
    rfl
  | succ n' ih =>
    intro b hb
    cases hfs : findSync b with
    | none =>
      have hnb : ∀ j, ¬ syncAt b j := (findSync_eq_none_iff b).mp hfs
      rw [drain_of_findSync_none b hfs]
      by_cases hlen : 2 < b.length
      · rw [if_pos hlen]
        have hnt : findSync (b.drop (b.length - 2)) = none := by
          rw [findSync_eq_none_iff]
          intro j hsync
          exact hnb _ ((syncAt_drop b (b.length - 2) j).mp hsync)
        rw [drain_of_findSync_none _ hnt,
          if_neg (by rw [List.length_drop]; omega)]
      · rw [if_neg hlen]
        rw [drain_of_findSync_none b hfs, if_neg hlen]
    | some i =>
      obtain ⟨hs, hmin⟩ := findSync_eq_some_first b i hfs
      by_cases h9 : (b.drop i).length < 9
      · rw [drain_of_findSync_some_short b i hfs h9]
        have hs0 : findSync (b.drop i) = some 0 := by
          apply syncAt_zero_findSync
          rw [syncAt_drop]
          simpa using hs
        rw [drain_of_findSync_some_short (b.drop i) 0 hs0 (by rwa [List.drop_zero]),
          List.drop_zero]
      · have hrestlen : ((b.drop i).drop 9).length ≤ n' := by
          have hib : i + 1 < b.length := (List.get?_eq_some.mp hs.2).1
          simp only [List.length_drop]
          simp only [List.length_drop] at h9
          omega
        have hIH := ih ((b.drop i).drop 9) hrestlen
        rw [drain_of_findSync_some_long b i hfs h9]
        cases hp : parse_tfmini_frame ((b.drop i).take 9) with
        | none => exact hIH
        | some smp => exact hIH

theorem drain_quiescent (b : List Nat) : drain (drain b).1 = ((drain b).1, []) :=
  drain_quiescent_aux b.length b (Nat.le_refl _)


theorem runChunks_eq_drain_flatten :
    ∀ (cs : List (List Nat)) (buf : List Nat), drain buf = (buf, []) →
      runChunks buf cs = drain (buf ++ cs.flatten) := by
  intro cs
  induction cs with
  | nil =>
    intro buf hq
    rw [List.flatten_nil, List.append_nil, hq]
    rfl
  | cons c cs' ih =>
    intro buf hq
    have hassoc : buf ++ (c :: cs').flatten = (buf ++ c) ++ cs'.flatten := by
      rw [List.flatten_cons, List.append_assoc]
    rw [hassoc, drain_append (buf ++ c) cs'.flatten]
    have hq' : drain (drain (buf ++ c)).1 = ((drain (buf ++ c)).1, []) :=
      drain_quiescent (buf ++ c)
    rw [← ih (drain (buf ++ c)).1 hq']
    rfl

example : drain [1, 2, 3] = ([2, 3], []) := by decide


example : drain [0x59, 0x59, 100, 0, 200, 0, 0, 0, 222] = ([], [⟨100, 200⟩]) := by decide

example : parse_tfmini_frame [0x59, 0x59, 100, 0, 200, 0, 0, 0, 222] = some ⟨100, 200⟩ := by
  decide

example : parseHHMM "08:00" = some 28800 := by decide

example : parseHHMM "22:00" = some 79200 := by decide

example : parseHHMM "2:5" = some 7500 := by decide

example : parseHHMM "" = none := by decide

example : parseHHMM "25:00" = none := by decide

example : parseHHMM "xx:00" = none := by decide

example : parseHHMM "10:00:00" = none := by decide

/-! ## Claim C1: recovery after a checksum failure -/

/-- C1 (counterexample): the stream `59 59` followed by a valid frame.
The decoder takes the first 9 bytes as a candidate (sync bytes match,
checksum fails) and consumes all 9 of them — not just the two sync
bytes — so the valid frame beginning immediately after the two sync
bytes is destroyed and zero samples are decoded, contrary to the
claim that a valid frame beginning anywhere after the two sync bytes
is still decoded. -/
theorem C1_counterexample :
    parse_tfmini_frame
        (([0x59, 0x59, 0x59, 0x59, 100, 0, 200, 0, 0, 0, 222] : List Nat).take 9) = none ∧
    parse_tfmini_frame [0x59, 0x59, 100, 0, 200, 0, 0, 0, 222] = some ⟨100, 200⟩ ∧
    ([0x59, 0x59, 0x59, 0x59, 100, 0, 200, 0, 0, 0, 222] : List Nat) =
      [0x59, 0x59] ++ [0x59, 0x59, 100, 0, 200, 0, 0, 0, 222] ∧
    drain [0x59, 0x59, 0x59, 0x59, 100, 0, 200, 0, 0, 0, 222] = ([0, 222], []) := by
  refine ⟨by decide, by decide, rfl, by decide⟩

/-- C1 (amended): when a 9-byte candidate frame beginning with the two
sync bytes fails validation, `sensor_loop` drops the *entire 9-byte
candidate* and resumes scanning at the byte after it: decoding the
whole stream equals decoding the part after the candidate.  In
particular the corrupted candidate yields zero samples and a valid
frame beginning at or after the end of the candidate (including
immediately after it) is still decoded. -/
theorem C1_checksum_failure_drops_whole_candidate (c rest : List Nat)
    (hlen : c.length = 9) (h0 : c.get? 0 = some 0x59) (h1 : c.get? 1 = some 0x59)
    (hbad : parse_tfmini_frame c = none) :
    drain (c ++ rest) = drain rest := by
  have hsync : syncAt (c ++ rest) 0 :=
    ⟨by rw [List.get?_append (by omega)]; exact h0,
     by rw [List.get?_append (by omega)]; exact h1⟩
  have hfs : findSync (c ++ rest) = some 0 := syncAt_zero_findSync _ hsync
  have h9 : ¬ ((c ++ rest).drop 0).length < 9 := by
    rw [List.drop_zero, List.length_append]; omega
  rw [drain_of_findSync_some_long (c ++ rest) 0 hfs h9]
  have htake : ((c ++ rest).drop 0).take 9 = c := by
    rw [List.drop_zero, List.take_append_of_le_length (by omega), ← hlen,
      List.take_length]
  have hdrop : ((c ++ rest).drop 0).drop 9 = rest := by
    rw [List.drop_zero, List.drop_append_of_le_length (by omega), ← hlen,
      List.drop_length, List.nil_append]
  rw [htake, hdrop, hbad]

/-- C1 witness: the amended theorem applied to the concrete corrupted
candidate of `C1_counterexample` followed by a valid frame. -/
theorem C1_checksum_failure_drops_whole_candidate_witness :
    drain ([0x59, 0x59, 0x59, 0x59, 100, 0, 200, 0, 0] ++
        [0x59, 0x59, 100, 0, 200, 0, 0, 0, 222]) =
      drain [0x59, 0x59, 100, 0, 200, 0, 0, 0, 222] :=
  C1_checksum_failure_drops_whole_candidate
    [0x59, 0x59, 0x59, 0x59, 100, 0, 200, 0, 0]
    [0x59, 0x59, 100, 0, 200, 0, 0, 0, 222]
    (by decide) (by decide) (by decide) (by decide)

/-! ## Claim C5: chunk-boundary independence of decoding -/

/-- C5: feeding the decode loop one byte at a time produces exactly
the samples produced by feeding the whole byte sequence at once, both
equal to a single drain of the whole sequence. -/
theorem C5_chunk_boundary_independence (xs : List Nat) :
    (runChunks [] (xs.map (fun b => [b]))).2 = (runChunks [] [xs]).2 ∧
    (runChunks [] [xs]).2 = (drain xs).2 := by
  have hq : drain ([] : List Nat) = ([], []) := rfl
  have hflat : (xs.map (fun b => [b])).flatten = xs := by
    induction xs with
    | nil => rfl
    | cons x xs ih => simp only [List.map_cons, List.flatten_cons, ih,
        List.singleton_append]
  have h1 := runChunks_eq_drain_flatten (xs.map (fun b => [b])) [] hq
  have h2 := runChunks_eq_drain_flatten [xs] [] hq
  have hflat2 : ([xs] : List (List Nat)).flatten = xs := by
    simp [List.flatten_cons]
  rw [h1, h2, List.nil_append, List.nil_append, hflat, hflat2]
  exact ⟨rfl, rfl⟩

/-! ## Claim C9: buffer tail kept on resync -/

/-- C9 (counterexample): after a decode attempt on a 3-byte buffer
with no sync marker, the decoder keeps the last *2* bytes, not at
most the last 1 byte as claimed. -/
theorem C9_counterexample :
    findSync [1, 2, 3] = none ∧ (drain [1, 2, 3]).1 = [2, 3] ∧
      ¬ ((drain [1, 2, 3]).1.length ≤ 1) := by
  refine ⟨by decide, by decide, by decide⟩

theorem drain_fst_suffix_aux :
    ∀ (n : Nat) (buf : List Nat), buf.length ≤ n → (drain buf).1 <:+ buf := by
  intro n
  induction n with
  | zero =>
    intro buf hb
    have : buf = [] := List.length_eq_zero.mp (Nat.le_zero.mp hb)
    subst this
    exact List.suffix_refl []
  | succ n' ih =>
    intro buf hb
    cases hfs : findSync buf with
    | none =>
      rw [drain_of_findSync_none buf hfs]
      by_cases hlen : 2 < buf.length
      · rw [if_pos hlen]; exact List.drop_suffix _ _
      · rw [if_neg hlen]
    | some i =>
      by_cases h9 : (buf.drop i).length < 9
      · rw [drain_of_findSync_some_short buf i hfs h9]
        exact List.drop_suffix _ _
      · have hrl : ((buf.drop i).drop 9).length ≤ n' := by
          simp only [List.length_drop]
          simp only [List.length_drop] at h9
          omega
        have hs := ih ((buf.drop i).drop 9) hrl
        have hsub : ((buf.drop i).drop 9) <:+ buf := by
          rw [List.drop_drop]
          exact List.drop_suffix _ _
        rw [drain_of_findSync_some_long buf i hfs h9]
        cases parse_tfmini_frame ((buf.drop i).take 9) with
        | none => exact hs.trans hsub
        | some smp => exact hs.trans hsub

/-- C9 (amended): when the pending buffer contains no sync marker, a
decode attempt keeps exactly the last two bytes (at most 2, not at
most 1) and emits nothing; and in general every decode attempt leaves
a suffix of the buffer it started from (it only ever consumes from
the front). -/
theorem C9_resync_keeps_last_two_bytes :
    (∀ buf : List Nat, findSync buf = none →
      (drain buf).1 = buf.drop (buf.length - 2) ∧ (drain buf).1.length ≤ 2 ∧
        (drain buf).2 = []) ∧
    (∀ buf : List Nat, (drain buf).1 <:+ buf) := by
  constructor
  · intro buf h
    rw [drain_of_findSync_none buf h]
    by_cases hlen : 2 < buf.length
    · rw [if_pos hlen]
      refine ⟨rfl, ?_, rfl⟩
      simp only [List.length_drop]
      omega
    · rw [if_neg hlen]
      refine ⟨?_, Nat.le_of_not_lt hlen, rfl⟩
      rw [show buf.length - 2 = 0 by omega, List.drop_zero]
  · intro buf
    exact drain_fst_suffix_aux buf.length buf (Nat.le_refl _)

/-- C9 witness: the amended theorem applied to the concrete buffer
`[1, 2, 3]`. -/
theorem C9_resync_keeps_last_two_bytes_witness :
    (drain [1, 2, 3]).1 = ([1, 2, 3] : List Nat).drop (([1, 2, 3] : List Nat).length - 2) ∧
      (drain [1, 2, 3]).1.length ≤ 2 ∧ (drain [1, 2, 3]).2 = [] :=
  C9_resync_keeps_last_two_bytes.1 [1, 2, 3] (by decide)

/-! ## Claims C2 and C6: schedule evaluation cases and the time window -/

theorem parseHHMM_empty : parseHHMM "" = none := by decide

theorem strFalsy_of_parse (s : String) (a : Nat) (h : parseHHMM s = some a) :
    strFalsy (some s) = false := by
  by_cases hs : s = ""
  · subst hs
    rw [parseHHMM_empty] at h
    cases h
  · simp [strFalsy, hs]

/-- In `compute_schedule_flags`, when the selected day entry has
present, nonempty and parsable start/stop strings, the function
returns `(True, active, enable)` with `active` computed from the time
window — the `enable` flag is returned as-is and never short-circuits
the computation. -/
theorem compute_flags_parsable (data : List DayEntry) (weekday now_t : Nat)
    (entry : DayEntry) (ss ts : String) (start_t stop_t : Nat)
    (hget : data.get? ((weekday + 1) % 7) = some entry)
    (hss : entry.StartShow = some ss) (hts : entry.ShowStop = some ts)
    (hps : parseHHMM ss = some start_t) (hpt : parseHHMM ts = some stop_t) :
    compute_schedule_flags (some (ScheduleDoc.arr data)) weekday now_t =
      (true,
        if start_t ≤ stop_t then decide (start_t ≤ now_t ∧ now_t ≤ stop_t)
        else decide (now_t ≥ start_t ∨ now_t ≤ stop_t),
        entry.Enable) := by
  have h1 : strFalsy entry.StartShow = false := by
    rw [hss]; exact strFalsy_of_parse ss start_t hps
  have h2 : strFalsy entry.ShowStop = false := by
    rw [hts]; exact strFalsy_of_parse ts stop_t hpt
  simp only [compute_schedule_flags, hget, hss, hts, h1, h2, hps, hpt]
  simp only [strFalsy_of_parse ss start_t hps, strFalsy_of_parse ts stop_t hpt]
  simp

/-- In `compute_schedule_flags`, a missing or empty start/stop string
yields `(False, False, enable)` — note `valid = False`, not `True`. -/
theorem compute_flags_missing (data : List DayEntry) (weekday now_t : Nat)
    (entry : DayEntry)
    (hget : data.get? ((weekday + 1) % 7) = some entry)
    (hfalsy : strFalsy entry.StartShow = true ∨ strFalsy entry.ShowStop = true) :
    compute_schedule_flags (some (ScheduleDoc.arr data)) weekday now_t =
      (false, false, entry.Enable) := by
  simp only [compute_schedule_flags, hget]
  rcases hfalsy with h | h <;> simp [h]

/-- In `compute_schedule_flags`, an unparsable (but nonempty) start or
stop string raises inside the `try` and yields `(False, False, False)`
— the day's `enable` flag is not reported. -/
theorem compute_flags_unparsable (data : List DayEntry) (weekday now_t : Nat)
    (entry : DayEntry) (ss ts : String)
    (hget : data.get? ((weekday + 1) % 7) = some entry)
    (hss : entry.StartShow = some ss) (hts : entry.ShowStop = some ts)
    (hne : ¬ ss = "") (hnet : ¬ ts = "")
    (hfail : parseHHMM ss = none ∨ parseHHMM ts = none) :
    compute_schedule_flags (some (ScheduleDoc.arr data)) weekday now_t =
      (false, false, false) := by
  simp only [compute_schedule_flags, hget, hss, hts, strFalsy]
  rcases hfail with h | h
  · cases hpt : parseHHMM ts <;> simp [h, hpt, hne, hnet]
  · cases hps : parseHHMM ss <;> simp [h, hps, hne, hnet]

/-- C2 (counterexample): with the selected day's `Enable` false but a
time window containing `now`, the code returns `(True, True, False)` —
`active` is still computed, not forced to false as the claim states;
and with a missing start string the code returns
`(False, False, enable)`, not `(True, False, enable)`. -/
theorem C2_counterexample :
    compute_schedule_flags
        (some (ScheduleDoc.arr
          (List.replicate 7 ⟨false, some "08:00", some "20:00"⟩))) 6 36000 =
      (true, true, false) ∧
    compute_schedule_flags
        (some (ScheduleDoc.arr
          (List.replicate 7 ⟨false, some "08:00", some "20:00"⟩))) 6 36000 ≠
      (true, false, false) ∧
    compute_schedule_flags
        (some (ScheduleDoc.arr
          (List.replicate 7 ⟨true, none, some "20:00"⟩))) 6 36000 =
      (false, false, true) ∧
    compute_schedule_flags
        (some (ScheduleDoc.arr
          (List.replicate 7 ⟨true, none, some "20:00"⟩))) 6 36000 ≠
      (true, false, true) := by
  refine ⟨by decide, by decide, by decide, by decide⟩

/-- C2 (amended): `compute_schedule_flags` returns
`(False, False, False)` when no schedule is loaded; when the selected
day's start/stop strings are present, nonempty and parsable it returns
`(True, active, enable)` with `active` computed from the window
regardless of the `enable` flag (no early return on a disabled day);
when a start/stop string is missing or empty it returns
`(False, False, enable)`; and when one is nonempty but unparsable it
returns `(False, False, False)`. -/
theorem C2_schedule_flag_cases :
    (∀ weekday now_t, compute_schedule_flags none weekday now_t =
      (false, false, false)) ∧
    (∀ (data : List DayEntry) (weekday now_t : Nat) (entry : DayEntry)
       (ss ts : String) (start_t stop_t : Nat),
      data.get? ((weekday + 1) % 7) = some entry →
      entry.StartShow = some ss → entry.ShowStop = some ts →
      parseHHMM ss = some start_t → parseHHMM ts = some stop_t →
      compute_schedule_flags (some (ScheduleDoc.arr data)) weekday now_t =
        (true,
          if start_t ≤ stop_t then decide (start_t ≤ now_t ∧ now_t ≤ stop_t)
          else decide (now_t ≥ start_t ∨ now_t ≤ stop_t),
          entry.Enable)) ∧
    (∀ (data : List DayEntry) (weekday now_t : Nat) (entry : DayEntry),
      data.get? ((weekday + 1) % 7) = some entry →
      strFalsy entry.StartShow = true ∨ strFalsy entry.ShowStop = true →
      compute_schedule_flags (some (ScheduleDoc.arr data)) weekday now_t =
        (false, false, entry.Enable)) ∧
    (∀ (data : List DayEntry) (weekday now_t : Nat) (entry : DayEntry)
       (ss ts : String),
      data.get? ((weekday + 1) % 7) = some entry →
      entry.StartShow = some ss → entry.ShowStop = some ts →
      ¬ ss = "" → ¬ ts = "" →
      parseHHMM ss = none ∨ parseHHMM ts = none →
      compute_schedule_flags (some (ScheduleDoc.arr data)) weekday now_t =
        (false, false, false)) :=
  ⟨fun _ _ => rfl, compute_flags_parsable, compute_flags_missing,
    compute_flags_unparsable⟩

/-- C2 witness: the amended cases at concrete inputs — a disabled day
with an in-window time evaluates to `(True, True, False)`, a missing
start string to `(False, False, True)`, and an unparsable start string
to `(False, False, False)`. -/
theorem C2_schedule_flag_cases_witness :
    compute_schedule_flags none 0 0 = (false, false, false) ∧
    compute_schedule_flags
        (some (ScheduleDoc.arr
          (List.replicate 7 ⟨false, some "08:00", some "20:00"⟩))) 6 36000 =
      (true, true, false) ∧
    compute_schedule_flags
        (some (ScheduleDoc.arr
          (List.replicate 7 ⟨true, none, some "20:00"⟩))) 6 36000 =
      (false, false, true) ∧
    compute_schedule_flags
        (some (ScheduleDoc.arr
          (List.replicate 7 ⟨true, some "2x:00", some "20:00"⟩))) 6 36000 =
      (false, false, false) :=
  ⟨C2_schedule_flag_cases.1 0 0,
   (C2_schedule_flag_cases.2.1
      (List.replicate 7 ⟨false, some "08:00", some "20:00"⟩) 6 36000
      ⟨false, some "08:00", some "20:00"⟩ "08:00" "20:00" 28800 72000
      (by decide) rfl rfl (by decide) (by decide)).trans (by decide),
   (C2_schedule_flag_cases.2.2.1
      (List.replicate 7 ⟨true, none, some "20:00"⟩) 6 36000
      ⟨true, none, some "20:00"⟩ (by decide) (Or.inl (by decide))).trans
      (by decide),
   C2_schedule_flag_cases.2.2.2
      (List.replicate 7 ⟨true, some "2x:00", some "20:00"⟩) 6 36000
      ⟨true, some "2x:00", some "20:00"⟩ "2x:00" "20:00"
      (by decide) rfl rfl (by decide) (by decide) (Or.inl (by decide))⟩

/-- C6: for a day entry with parsable start/stop times the returned
`active` flag implements the same-day window `start ≤ now ≤ stop`
(boundaries inclusive) when `start ≤ stop`, and the midnight-crossing
window `now ≥ start ∨ now ≤ stop` when `start > stop`; in particular
22:00-02:00 is active at 23:30 and inactive at 10:00, and 08:00-20:00
is active at the 08:00 boundary. -/
theorem C6_time_window_semantics :
    (∀ (data : List DayEntry) (weekday now_t : Nat) (entry : DayEntry)
       (ss ts : String) (start_t stop_t : Nat),
      data.get? ((weekday + 1) % 7) = some entry →
      entry.StartShow = some ss → entry.ShowStop = some ts →
      parseHHMM ss = some start_t → parseHHMM ts = some stop_t →
      compute_schedule_flags (some (ScheduleDoc.arr data)) weekday now_t =
        (true,
          if start_t ≤ stop_t then decide (start_t ≤ now_t ∧ now_t ≤ stop_t)
          else decide (now_t ≥ start_t ∨ now_t ≤ stop_t),
          entry.Enable)) ∧
    (compute_schedule_flags
        (some (ScheduleDoc.arr
          (List.replicate 7 ⟨true, some "22:00", some "02:00"⟩))) 0 84600).2.1 =
      true ∧
    (compute_schedule_flags
        (some (ScheduleDoc.arr
          (List.replicate 7 ⟨true, some "22:00", some "02:00"⟩))) 0 36000).2.1 =
      false ∧
    (compute_schedule_flags
        (some (ScheduleDoc.arr
          (List.replicate 7 ⟨true, some "08:00", some "20:00"⟩))) 0 28800).2.1 =
      true :=
  ⟨compute_flags_parsable, by decide, by decide, by decide⟩

/-- C6 witness: the general window statement applied to the concrete
22:00-02:00 schedule at 23:30 local time. -/
theorem C6_time_window_semantics_witness :
    compute_schedule_flags
        (some (ScheduleDoc.arr
          (List.replicate 7 ⟨true, some "22:00", some "02:00"⟩))) 0 84600 =
      (true, true, true) :=
  (C6_time_window_semantics.1
    (List.replicate 7 ⟨true, some "22:00", some "02:00"⟩) 0 84600
    ⟨true, some "22:00", some "02:00"⟩ "22:00" "02:00" 79200 7200
    (by decide) rfl rfl (by decide) (by decide)).trans (by decide)

/-! ## Claim C7: schedule document validation on load -/

/-- C7 (counterexample): `load_local_schedule` installs a parsed
1-entry document without enforcing the 7-entry invariant, and the
installed short schedule is *not* treated as absent/invalid: for a
weekday whose index is in range, evaluation proceeds normally and
reports `valid = true`. -/
theorem C7_counterexample :
    load_local_schedule
        (some (ScheduleDoc.arr [⟨true, some "08:00", some "20:00"⟩])) none =
      (some (ScheduleDoc.arr [⟨true, some "08:00", some "20:00"⟩]), true) ∧
    ([(⟨true, some "08:00", some "20:00"⟩ : DayEntry)].length ≠ 7) ∧
    compute_schedule_flags
        (some (ScheduleDoc.arr [⟨true, some "08:00", some "20:00"⟩])) 6 36000 =
      (true, true, true) := by
  refine ⟨rfl, by decide, by decide⟩

/-- C7 (amended): `refresh_schedule` rejects failed fetches, non-array
documents and arrays whose length differs from 7, leaving the resident
document unchanged, and installs exactly-7-entry arrays; but
`load_local_schedule` installs *any* successfully parsed document with
no validation at all (the 7-entry invariant is enforced only on the
network-refresh path). -/
theorem C7_refresh_validates_but_local_load_does_not :
    (∀ old, refresh_schedule none old = (old, false)) ∧
    (∀ old, refresh_schedule (some ScheduleDoc.nonArray) old = (old, false)) ∧
    (∀ old es, es.length ≠ 7 →
      refresh_schedule (some (ScheduleDoc.arr es)) old = (old, false)) ∧
    (∀ old es, es.length = 7 →
      refresh_schedule (some (ScheduleDoc.arr es)) old =
        (some (ScheduleDoc.arr es), true)) ∧
    (∀ old d, load_local_schedule (some d) old = (some d, true)) ∧
    (∀ old, load_local_schedule none old = (old, false)) := by
  refine ⟨fun old => rfl, fun old => rfl, ?_, ?_, fun old d => rfl, fun old => rfl⟩
  · intro old es h
    simp [refresh_schedule, h]
  · intro old es h
    simp [refresh_schedule, h]

/-- C7 witness: a 1-entry document is rejected by `refresh_schedule`
(the previous resident document, here a 7-entry one, is kept), and a
7-entry document is installed. -/
theorem C7_refresh_validates_but_local_load_does_not_witness :
    refresh_schedule (some (ScheduleDoc.arr [⟨true, none, none⟩]))
        (some (ScheduleDoc.arr (List.replicate 7 ⟨false, none, none⟩))) =
      (some (ScheduleDoc.arr (List.replicate 7 ⟨false, none, none⟩)), false) ∧
    refresh_schedule (some (ScheduleDoc.arr (List.replicate 7 ⟨true, none, none⟩))) none =
      (some (ScheduleDoc.arr (List.replicate 7 ⟨true, none, none⟩)), true) :=
  ⟨C7_refresh_validates_but_local_load_does_not.2.2.1 _ _ (by decide),
   C7_refresh_validates_but_local_load_does_not.2.2.2.1 _ _ (by decide)⟩

/-! ## Claims C3, C4, C8: the debounce state machine and its side effects -/

/-- Either a `sensor_step` dispatches nothing, or it dispatches exactly
one detection, and then only on the `False → True` transition of
`car_active` with schedule authorization. -/
theorem sensor_step_cases (izd : Bool) (ms : Nat) (D : Int) (sa mo tm : Bool)
    (st : SensorState) (d s : Nat) (now : Int) :
    (sensor_step izd ms D sa mo tm st d s now).2 = none ∨
    (st.car_active = false ∧
      (sensor_step izd ms D sa mo tm st d s now).1.car_active = true ∧
      (sensor_step izd ms D sa mo tm st d s now).2 = some (d, !tm) ∧
      (sa || mo) = true) := by
  simp only [sensor_step]
  repeat' split
  all_goals try exact Or.inl rfl
  all_goals refine Or.inr ⟨by simp_all, rfl, rfl, ?_⟩
  all_goals cases sa <;> simp_all

/-- While `car_active` is already true (`PRESENT` or `FALLING`),
a `sensor_step` never dispatches a detection. -/
theorem sensor_step_none_of_active (izd : Bool) (ms : Nat) (D : Int)
    (sa mo tm : Bool) (st : SensorState) (d s : Nat) (now : Int)
    (h : st.car_active = true) :
    (sensor_step izd ms D sa mo tm st d s now).2 = none := by
  rcases sensor_step_cases izd ms D sa mo tm st d s now with hc | hc
  · exact hc
  · rw [h] at hc
    cases hc.1

/-- A dispatched detection happens exactly at a `False → True`
transition of `car_active`. -/
theorem sensor_step_emit_rise (izd : Bool) (ms : Nat) (D : Int)
    (sa mo tm : Bool) (st : SensorState) (d s : Nat) (now : Int)
    (h : (sensor_step izd ms D sa mo tm st d s now).2 ≠ none) :
    st.car_active = false ∧
      (sensor_step izd ms D sa mo tm st d s now).1.car_active = true := by
  rcases sensor_step_cases izd ms D sa mo tm st d s now with hc | hc
  · exact absurd hc h
  · exact ⟨hc.1, hc.2.1⟩

/-- A positive sample while `car_active` keeps `car_active` true and
dispatches nothing (re-detection during the clearing window returns
to `PRESENT` without an event). -/
theorem sensor_step_active_positive (izd : Bool) (ms : Nat) (D : Int)
    (sa mo tm : Bool) (st : SensorState) (d s : Nat) (now : Int)
    (hca : st.car_active = true)
    (hcar : ((!(izd && d == 0) && !(decide (ms ≠ 0) && decide (s < ms)))
      && decide (0 < d)) = true) :
    (sensor_step izd ms D sa mo tm st d s now).1.car_active = true ∧
      (sensor_step izd ms D sa mo tm st d s now).2 = none := by
  simp only [sensor_step, hca, hcar]
  simp

/-- A negative sample while `car_active`, with the clearing debounce
interval not yet elapsed, keeps `car_active` true and dispatches
nothing (the `FALLING` state does not pass through `EMPTY`). -/
theorem sensor_step_active_negative_short (izd : Bool) (ms : Nat) (D : Int)
    (sa mo tm : Bool) (st : SensorState) (d s : Nat) (now : Int)
    (hca : st.car_active = true)
    (hcar : ((!(izd && d == 0) && !(decide (ms ≠ 0) && decide (s < ms)))
      && decide (0 < d)) = false)
    (hshort : now - (if st.last_state_is_car then now else st.empty_since_ms) < D) :
    (sensor_step izd ms D sa mo tm st d s now).1.car_active = true ∧
      (sensor_step izd ms D sa mo tm st d s now).2 = none := by
  simp only [sensor_step, hca, hcar]
  by_cases hl : st.last_state_is_car
  · rw [if_pos hl] at hshort
    have hnd : ¬ D ≤ (0 : Int) := not_le.mpr (by simpa using hshort)
    simp [hl, hnd]
  · rw [if_neg hl] at hshort
    simp only [Bool.not_eq_true] at hl
    simp [hl, not_le.mpr hshort]

/-- Across a whole run, the number of dispatched detections is bounded
by the number of `False → True` transitions of `car_active`: at most
one detection per confirmed-presence cycle. -/
theorem sensor_run_emits_le_rises (izd : Bool) (ms : Nat) (D : Int) :
    ∀ (ins : List SampleIn) (st : SensorState),
      (sensor_run izd ms D st ins).2.length ≤ risesCount izd ms D st ins := by
  intro ins
  induction ins with
  | nil => intro st; simp [sensor_run, risesCount]
  | cons i is ih =>
    intro st
    simp only [sensor_run, risesCount, List.length_append]
    cases hr : (sensor_step izd ms D i.schedule_active i.manual_override
        i.test_mode st i.distance_mm i.strength i.now_ms).2 with
    | none =>
      simp only [List.length_nil, Nat.zero_add]
      exact le_trans (ih _) (Nat.le_add_left _ _)
    | some e =>
      obtain ⟨hpre, hpost⟩ := sensor_step_emit_rise izd ms D i.schedule_active
        i.manual_override i.test_mode st i.distance_mm i.strength i.now_ms
        (by rw [hr]; exact Option.some_ne_none e)
      have hih := ih (sensor_step izd ms D i.schedule_active i.manual_override
        i.test_mode st i.distance_mm i.strength i.now_ms).1
      rw [hpre, hpost]
      simp
      omega

/-- C4: at most one detection is dispatched per confirmed-presence
cycle.  Dispatches occur only at the `False → True` transition of
`car_active` (at most one per step); while `car_active` holds no
further detection is dispatched; a positive sample while `car_active`
(re-detection during the clearing debounce window) returns to the
confirmed state without an event, and a negative sample within the
clearing debounce interval also keeps `car_active` true, so the cycle
never passes through the empty state; and over any sample sequence the
number of dispatched detections is bounded by the number of
`False → True` transitions of `car_active`. -/
theorem C4_at_most_one_event_per_presence_cycle :
    (∀ (izd : Bool) (ms : Nat) (D : Int) (sa mo tm : Bool) (st : SensorState)
       (d s : Nat) (now : Int),
      (sensor_step izd ms D sa mo tm st d s now).2 ≠ none →
      st.car_active = false ∧
        (sensor_step izd ms D sa mo tm st d s now).1.car_active = true) ∧
    (∀ (izd : Bool) (ms : Nat) (D : Int) (sa mo tm : Bool) (st : SensorState)
       (d s : Nat) (now : Int), st.car_active = true →
      (sensor_step izd ms D sa mo tm st d s now).2 = none) ∧
    (∀ (izd : Bool) (ms : Nat) (D : Int) (sa mo tm : Bool) (st : SensorState)
       (d s : Nat) (now : Int), st.car_active = true →
      ((!(izd && d == 0) && !(decide (ms ≠ 0) && decide (s < ms)))
        && decide (0 < d)) = true →
      (sensor_step izd ms D sa mo tm st d s now).1.car_active = true ∧
        (sensor_step izd ms D sa mo tm st d s now).2 = none) ∧
    (∀ (izd : Bool) (ms : Nat) (D : Int) (sa mo tm : Bool) (st : SensorState)
       (d s : Nat) (now : Int), st.car_active = true →
      ((!(izd && d == 0) && !(decide (ms ≠ 0) && decide (s < ms)))
        && decide (0 < d)) = false →
      now - (if st.last_state_is_car then now else st.empty_since_ms) < D →
      (sensor_step izd ms D sa mo tm st d s now).1.car_active = true ∧
        (sensor_step izd ms D sa mo tm st d s now).2 = none) ∧
    (∀ (izd : Bool) (ms : Nat) (D : Int) (ins : List SampleIn) (st : SensorState),
      (sensor_run izd ms D st ins).2.length ≤ risesCount izd ms D st ins) :=
  ⟨sensor_step_emit_rise, sensor_step_none_of_active,
   sensor_step_active_positive, sensor_step_active_negative_short,
   fun izd ms D ins st => sensor_run_emits_le_rises izd ms D ins st⟩

/-- C4 witness: the conjuncts at concrete inputs.  A confirmed
transition dispatches one detection; a step from an already-confirmed
state dispatches nothing and stays confirmed for a positive sample or
a short negative window; and a concrete two-sample run dispatches at
most as many detections as it has rising transitions. -/
theorem C4_at_most_one_event_per_presence_cycle_witness :
    ((⟨false, true, some 0, 0, false, none, none, false⟩ : SensorState).car_active = false ∧
      (sensor_step true 0 200 true false false
        ⟨false, true, some 0, 0, false, none, none, false⟩ 1000 300 250).1.car_active = true) ∧
    (sensor_step true 0 200 true false false
      ⟨true, true, some 0, 0, true, none, none, true⟩ 1000 300 250).2 = none ∧
    ((sensor_step true 0 200 true false false
        ⟨true, true, some 0, 0, true, none, none, true⟩ 1000 300 250).1.car_active = true ∧
      (sensor_step true 0 200 true false false
        ⟨true, true, some 0, 0, true, none, none, true⟩ 1000 300 250).2 = none) ∧
    ((sensor_step true 0 200 true false false
        ⟨true, true, some 0, 100, true, none, none, true⟩ 0 300 250).1.car_active = true ∧
      (sensor_step true 0 200 true false false
        ⟨true, true, some 0, 100, true, none, none, true⟩ 0 300 250).2 = none) ∧
    (sensor_run true 0 200 ⟨false, true, some 0, 0, false, none, none, false⟩
        [⟨1000, 300, 250, true, false, false⟩, ⟨1000, 300, 300, true, false, false⟩]).2.length ≤
      risesCount true 0 200 ⟨false, true, some 0, 0, false, none, none, false⟩
        [⟨1000, 300, 250, true, false, false⟩, ⟨1000, 300, 300, true, false, false⟩] :=
  ⟨C4_at_most_one_event_per_presence_cycle.1 true 0 200 true false false
      ⟨false, true, some 0, 0, false, none, none, false⟩ 1000 300 250 (by decide),
   C4_at_most_one_event_per_presence_cycle.2.1 true 0 200 true false false
      ⟨true, true, some 0, 0, true, none, none, true⟩ 1000 300 250 rfl,
   C4_at_most_one_event_per_presence_cycle.2.2.1 true 0 200 true false false
      ⟨true, true, some 0, 0, true, none, none, true⟩ 1000 300 250 rfl (by decide),
   C4_at_most_one_event_per_presence_cycle.2.2.2.1 true 0 200 true false false
      ⟨true, true, some 0, 100, true, none, none, true⟩ 0 300 250 rfl (by decide)
      (by decide),
   C4_at_most_one_event_per_presence_cycle.2.2.2.2 true 0 200
      [⟨1000, 300, 250, true, false, false⟩, ⟨1000, 300, 300, true, false, false⟩]
      ⟨false, true, some 0, 0, false, none, none, false⟩⟩

/-- C8: a detection confirmed while `schedule_active` and
`manual_override` are both false sets `car_present` (and `car_active`)
to true — presence reflects the sensor — but dispatches nothing to
`handle_detection`: nothing is persisted and nothing is published for
that detection. -/
theorem C8_unauthorized_detection_updates_presence_only
    (izd : Bool) (ms : Nat) (D : Int) (tm : Bool) (st : SensorState)
    (d s : Nat) (now c : Int)
    (hca : st.car_active = false) (hlast : st.last_state_is_car = true)
    (hcs : st.car_since_ms = some c) (hdeb : D ≤ now - c)
    (hvalid : (!(izd && d == 0) && !(decide (ms ≠ 0) && decide (s < ms))) = true)
    (hpos : 0 < d) :
    (sensor_step izd ms D false false tm st d s now).2 = none ∧
    (sensor_step izd ms D false false tm st d s now).1.car_present = true ∧
    (sensor_step izd ms D false false tm st d s now).1.car_active = true ∧
    sink_effects (sensor_step izd ms D false false tm st d s now).2 =
      ⟨false, false, false⟩ := by
  have heff : ∀ o : Option (Nat × Bool), o = none → sink_effects o = ⟨false, false, false⟩ := by
    intro o ho; rw [ho]; rfl
  simp at hvalid
  have h2 : (sensor_step izd ms D false false tm st d s now).2 = none := by
    simp [sensor_step, hca, hlast, hcs, hvalid, hpos, hdeb]
  refine ⟨h2, ?_, ?_, heff _ h2⟩
  · simp [sensor_step, hca, hlast, hcs, hvalid, hpos, hdeb]
  · simp [sensor_step, hca, hlast, hcs, hvalid, hpos, hdeb]

/-- C8 witness: the theorem at a concrete unauthorized confirmed
detection. -/
theorem C8_unauthorized_detection_updates_presence_only_witness :
    (sensor_step true 0 200 false false false
        ⟨false, true, some 0, 0, false, none, none, false⟩ 1000 300 250).2 = none ∧
    (sensor_step true 0 200 false false false
        ⟨false, true, some 0, 0, false, none, none, false⟩ 1000 300 250).1.car_present = true ∧
    (sensor_step true 0 200 false false false
        ⟨false, true, some 0, 0, false, none, none, false⟩ 1000 300 250).1.car_active = true ∧
    sink_effects (sensor_step true 0 200 false false false
        ⟨false, true, some 0, 0, false, none, none, false⟩ 1000 300 250).2 =
      ⟨false, false, false⟩ :=
  C8_unauthorized_detection_updates_presence_only true 0 200 false
    ⟨false, true, some 0, 0, false, none, none, false⟩ 1000 300 250 0
    rfl rfl rfl (by decide) (by decide) (by decide)

/-- C3 (counterexample): a detection confirmed in test mode is
dispatched with `log_to_db = False`, and `handle_detection False`
still publishes to the MQTT notification channel
(`publish_detection` is called unconditionally), contradicting the
claim that test-mode detections are never published. -/
theorem C3_counterexample :
    (sensor_step true 0 200 true false true
        ⟨false, true, some 0, 0, false, none, none, false⟩ 1000 300 250).2 =
      some (1000, false) ∧
    (handle_detection false).published = true := by
  exact ⟨by decide, rfl⟩

/-- C3 (amended): a detection confirmed while `test_mode` is on is
counted in the in-memory `test_count_today` counter only and is never
written to the durable store, but it *is* still published to the MQTT
notification channel: `handle_detection` publishes unconditionally. -/
theorem C3_test_mode_skips_persistence_but_still_publishes
    (izd : Bool) (ms : Nat) (D : Int) (sa mo : Bool) (st : SensorState)
    (d s : Nat) (now c : Int)
    (hca : st.car_active = false) (hlast : st.last_state_is_car = true)
    (hcs : st.car_since_ms = some c) (hdeb : D ≤ now - c)
    (hvalid : (!(izd && d == 0) && !(decide (ms ≠ 0) && decide (s < ms))) = true)
    (hpos : 0 < d) (hsched : (sa || mo) = true) :
    (sensor_step izd ms D sa mo true st d s now).2 = some (d, false) ∧
    sink_effects (sensor_step izd ms D sa mo true st d s now).2 =
      { persisted := false, test_count_incremented := true, published := true } := by
  simp at hvalid
  have h2 : (sensor_step izd ms D sa mo true st d s now).2 = some (d, false) := by
    simp [sensor_step, hca, hlast, hcs, hvalid, hpos, hdeb, hsched]
  refine ⟨h2, ?_⟩
  rw [h2]
  rfl

/-- C3 witness: the amended theorem at a concrete test-mode detection. -/
theorem C3_test_mode_skips_persistence_but_still_publishes_witness :
    (sensor_step true 0 200 true false true
        ⟨false, true, some 0, 0, false, none, none, false⟩ 1000 300 250).2 =
      some (1000, false) ∧
    sink_effects (sensor_step true 0 200 true false true
        ⟨false, true, some 0, 0, false, none, none, false⟩ 1000 300 250).2 =
      { persisted := false, test_count_incremented := true, published := true } :=
  C3_test_mode_skips_persistence_but_still_publishes true 0 200 true false
    ⟨false, true, some 0, 0, false, none, none, false⟩ 1000 300 250 0
    rfl rfl rfl (by decide) (by decide) (by decide) (by decide)

/-! ## Claim C10: mode control vs configuration update -/

/-- C10: toggling `test_mode` from off to on through `api_mode` resets
`test_count_today` to zero and changes no other `ModeState` field,
while setting `test_mode` through `api_config` leaves
`test_count_today` (and every other field) untouched. -/
theorem C10_mode_toggle_resets_test_counter :
    (∀ g : ModeState, g.test_mode = false →
      api_mode_post (some true) none g =
        { g with test_mode := true, test_count_today := 0 }) ∧
    (∀ (g : ModeState) (b : Bool),
      api_config_post_test_mode (some b) g = { g with test_mode := b }) := by
  constructor
  · intro g hg
    simp [api_mode_post, hg]
  · intro g b
    rfl

/-- C10 witness: the theorem applied to a concrete state with
`test_mode` off and a nonzero test counter. -/
theorem C10_mode_toggle_resets_test_counter_witness :
    api_mode_post (some true) none ⟨false, 5, false, true, true, false, some 42⟩ =
      ⟨true, 0, false, true, true, false, some 42⟩ ∧
    api_config_post_test_mode (some true) ⟨false, 5, false, true, true, false, some 42⟩ =
      ⟨true, 5, false, true, true, false, some 42⟩ :=
  ⟨C10_mode_toggle_resets_test_counter.1 ⟨false, 5, false, true, true, false, some 42⟩ rfl,
   C10_mode_toggle_resets_test_counter.2 ⟨false, 5, false, true, true, false, some 42⟩ true⟩

end LidarCounter
